import Mathlib

/-!
Verification of the adaptive-tutorial reinforcement-learning system
(`src/rl_agent.py`, `src/environment.py`, `src/experiment_runner.py`).

The Python code is shallowly embedded: floats become rationals (ℚ),
the 4-element discrete action space becomes `Fin 4`, dictionaries keyed
by the f-string `"{perf_bucket}_{streak_bucket}_{difficulty}"` are keyed
by the triple `(perf_bucket, streak_bucket, difficulty)` (the f-string is
injective in the three components, since their decimal representations
contain no underscore), and the global NumPy random stream is threaded
through as explicit oracle arguments (the uniform draw `u`, the random
action, the tie-break pick).  Python exceptions are modelled with
`Except String`.
-/

/-- Python `int()` truncation toward zero, used by `State.to_key`
(`rl_agent.py` line 19: `int(self.performance * 10)`). -/
def pyInt (q : ℚ) : ℤ :=
  if 0 ≤ q then ⌊q⌋ else -⌊-q⌋

/-- `rl_agent.State` (`rl_agent.py` lines 9-15): learner performance,
consecutive-success streak, number of questions answered, last difficulty. -/
structure State where
  performance : ℚ
  streak : ℕ
  questions_answered : ℕ
  difficulty : ℕ
deriving DecidableEq, Repr, Inhabited

/-- Discretized lookup key: the triple behind the f-string of
`State.to_key` (`rl_agent.py` line 21). -/
abbrev QKey := ℤ × ℕ × ℕ

/-- `State.to_key` (`rl_agent.py` lines 17-21):
`perf_bucket = int(performance * 10)`, `streak_bucket = min(streak, 5)`,
third component the stored difficulty. -/
def State.to_key (s : State) : QKey :=
  (pyInt (s.performance * 10), min s.streak 5, s.difficulty)

/-- A learner profile (`environment.py` lines 14-30). -/
structure Profile where
  base_prob : ℚ
  learn_rate : ℚ
  fatigue_rate : ℚ
deriving DecidableEq, Repr

/-- The `learner_profiles` dictionary (`environment.py` lines 14-30);
`none` models the `KeyError` a missing key raises at line 32. -/
def learnerProfiles (learner_type : String) : Option Profile :=
  if learner_type = "fast" then some ⟨4/5, 3/20, 1/100⟩
  else if learner_type = "average" then some ⟨3/5, 2/25, 1/50⟩
  else if learner_type = "slow" then some ⟨2/5, 1/25, 3/100⟩
  else none

/-- `TutorialEnvironment` instance state: the chosen profile, the learner
state object `self.state`, and `self.fatigue` (`environment.py`). -/
structure TutorialEnvironment where
  profile : Profile
  state : State
  fatigue : ℚ
deriving DecidableEq, Repr

/-- `TutorialEnvironment.reset` result (`environment.py` lines 36-45):
performance 0.5, streak 0, questions 0, difficulty 1 (medium). -/
def resetState : State := ⟨1/2, 0, 0, 1⟩

/-- `TutorialEnvironment.__init__` (`environment.py` lines 12-34): look the
profile up (a missing key raises `KeyError`) and reset.  The error case
models the exception. -/
def TutorialEnvironment.init (learner_type : String) :
    Except String TutorialEnvironment :=
  match learnerProfiles learner_type with
  | some p => Except.ok ⟨p, resetState, 0⟩
  | none => Except.error "KeyError: unknown learner_type"

/-- `np.clip(prob, 0.05, 0.95)` (`environment.py` line 114). -/
def npClip (x lo hi : ℚ) : ℚ := max lo (min x hi)

/-- `difficulty_factors = [1.3, 1.0, 0.7, 0.5]` (`environment.py` line 98),
indexed by the action; the default of `getD` is unreachable since
`a.val < 4`. -/
def difficultyFactors (a : Fin 4) : ℚ :=
  [13/10, 1, 7/10, 1/2].getD a.val 0

/-- `TutorialEnvironment._calculate_success_probability`
(`environment.py` lines 95-114): base probability times difficulty factor
times fatigue penalty, plus streak bonus `min(0.1, streak * 0.02)`,
clipped to `[0.05, 0.95]`. -/
def TutorialEnvironment.calculate_success_probability
    (env : TutorialEnvironment) (difficulty : Fin 4) : ℚ :=
  let base_prob := env.profile.base_prob * env.state.performance
  let prob1 := base_prob * difficultyFactors difficulty
  let prob2 := prob1 * (1 - env.fatigue)
  let streak_bonus := min (1/10) ((env.state.streak : ℚ) * (1/50))
  npClip (prob2 + streak_bonus) (1/20) (19/20)

/-- `TutorialEnvironment._calculate_reward` (`environment.py` lines
116-156): success base `(difficulty+1)*2` with streak bonuses read from
the CURRENT (pre-update) `self.state.streak`; failure base
`-(4-difficulty)`; then the optimal-challenge bonus and the two
performance penalties. -/
def TutorialEnvironment.calculate_reward
    (env : TutorialEnvironment) (difficulty : Fin 4) (success : Bool) : ℚ :=
  let base : ℚ :=
    if success then
      ((difficulty.val : ℚ) + 1) * 2
        + (if 3 < env.state.streak then 1 else 0)
        + (if 5 < env.state.streak then 1 else 0)
    else
      -(4 - (difficulty.val : ℚ))
  let success_prob := env.calculate_success_probability difficulty
  let r1 := base + (if 2/5 ≤ success_prob ∧ success_prob ≤ 7/10 then 1/2 else 0)
  let r2 := r1 - (if 7/10 < env.state.performance ∧ difficulty.val = 0 then 1 else 0)
  r2 - (if env.state.performance < 3/10 ∧ difficulty.val = 3 then 1 else 0)

/-- The `info` dictionary returned by `step` (`environment.py` lines
86-91); the difficulty label string is omitted (pure display data). -/
structure StepInfo where
  success : Bool
  performance_change : ℚ
  success_probability : ℚ
deriving DecidableEq, Repr

/-- The 4-tuple returned by `TutorialEnvironment.step`.  In Python the
first component is `self.state` itself — the same object the environment
keeps — so `stateRet` is by construction the post-update state stored in
`env`. -/
structure StepResult where
  env : TutorialEnvironment
  stateRet : State
  reward : ℚ
  done : Bool
  info : StepInfo
deriving DecidableEq, Repr

/-- `TutorialEnvironment.step` (`environment.py` lines 47-93).  The
uniform draw `np.random.random()` is model input `u`; success is
`u < success_prob`.  The reward is computed BEFORE the state update
(line 59 precedes lines 62-80), so `calculate_reward` sees the pre-update
performance and streak. -/
def TutorialEnvironment.step (env : TutorialEnvironment) (action : Fin 4)
    (u : ℚ) : StepResult :=
  let success_prob := env.calculate_success_probability action
  let success := decide (u < success_prob)
  let reward := env.calculate_reward action success
  let old := env.state
  let newPerf :=
    if success then min 1 (old.performance + env.profile.learn_rate)
    else max 0 (old.performance - env.profile.learn_rate / 2)
  let newStreak := if success then old.streak + 1 else 0
  let newFatigue := min (1/2) (env.fatigue + env.profile.fatigue_rate)
  let newState : State := ⟨newPerf, newStreak, old.questions_answered + 1, action.val⟩
  { env := ⟨env.profile, newState, newFatigue⟩
    stateRet := newState
    reward := reward
    done := decide (20 ≤ newState.questions_answered)
    info := ⟨success, newState.performance - old.performance, success_prob⟩ }

/-- Spec-side reward base (the amended claim C1): success base
`(action+1)*2` plus `+1` when the PRE-update streak exceeds 3 and another
`+1` when it exceeds 5; failure base `-(4-action)`. -/
def specBaseReward (preStreak : ℕ) (action : Fin 4) (success : Bool) : ℚ :=
  if success then
    ((action.val : ℚ) + 1) * 2 + (if 3 < preStreak then 1 else 0)
      + (if 5 < preStreak then 1 else 0)
  else
    -(4 - (action.val : ℚ))

/-- Spec-side additive adjustments: the optimal-challenge bonus and the
two performance penalties, all evaluated on the pre-update state. -/
def specAdjustments (env : TutorialEnvironment) (action : Fin 4) : ℚ :=
  (if 2/5 ≤ env.calculate_success_probability action
      ∧ env.calculate_success_probability action ≤ 7/10 then 1/2 else 0)
  - (if 7/10 < env.state.performance ∧ action.val = 0 then 1 else 0)
  - (if env.state.performance < 3/10 ∧ action.val = 3 then 1 else 0)

/-- Concrete environment exhibiting the C1 discrepancy: average profile,
performance 0.5, streak 3, fatigue 0. -/
def c1Env : TutorialEnvironment := ⟨⟨3/5, 2/25, 1/50⟩, ⟨1/2, 3, 0, 1⟩, 0⟩

/-- Claim C1, counterexample: a successful step (action 1, draw 0) from a
state with streak 3.  The post-update streak is 4, which exceeds 3, so
the claim predicts reward `(1+1)*2 + 1 = 5`; the code returns 4, because
`_calculate_reward` runs before the streak is incremented and reads the
pre-update streak 3.  (No optimal-challenge bonus or penalty triggers at
this input: the success probability is 0.36 and performance is 0.5.) -/
theorem c1_post_streak_counterexample :
    (c1Env.step 1 0).info.success = true
    ∧ 3 < (c1Env.step 1 0).env.state.streak
    ∧ (c1Env.step 1 0).reward = 4
    ∧ (c1Env.step 1 0).reward ≠ ((1 : ℚ) + 1) * 2 + 1 := by
  refine ⟨?_, ?_, ?_, ?_⟩ <;>
    norm_num [TutorialEnvironment.step, TutorialEnvironment.calculate_reward,
      TutorialEnvironment.calculate_success_probability, c1Env,
      difficultyFactors, npClip, min_def, max_def]

/-- Claim C1 (amended): for every step, the returned reward equals the
base — for success `(action+1)*2` plus `+1` when the PRE-update streak
(the streak before the success increments it) exceeds 3 and another `+1`
when it exceeds 5; for failure `-(4-action)` — plus the additive
adjustments (optimal-challenge bonus and the two performance
penalties). -/
theorem c1_reward_base_uses_pre_update_streak
    (env : TutorialEnvironment) (action : Fin 4) (u : ℚ) :
    (env.step action u).reward =
      specBaseReward env.state.streak action
          (decide (u < env.calculate_success_probability action))
        + specAdjustments env action := by
  simp only [TutorialEnvironment.step, TutorialEnvironment.calculate_reward,
    specBaseReward, specAdjustments]
  split_ifs <;> ring

/-- Claim C7: for every profile, every learner state with performance in
`[0,1]`, every streak, every fatigue value and every action, the success
probability computed by `_calculate_success_probability` lies in
`[0.05, 0.95]` (the `np.clip` at `environment.py` line 114). -/
theorem c7_success_probability_clamped
    (env : TutorialEnvironment)
    (_h0 : 0 ≤ env.state.performance) (_h1 : env.state.performance ≤ 1)
    (a : Fin 4) :
    1/20 ≤ env.calculate_success_probability a
      ∧ env.calculate_success_probability a ≤ 19/20 := by
  unfold TutorialEnvironment.calculate_success_probability npClip
  constructor
  · exact le_max_left _ _
  · exact max_le (by norm_num) (min_le_right _ _)

/-- Witness for C7 at a concrete input: the average profile, a state with
performance 0 (which lies in [0,1]), streak 0, fatigue 0, action 2. -/
theorem c7_witness :
    (0 : ℚ) ≤ (0 : ℚ) ∧ (0 : ℚ) ≤ 1
    ∧ (1/20 ≤ TutorialEnvironment.calculate_success_probability
          ⟨⟨3/5, 2/25, 1/50⟩, ⟨0, 0, 0, 1⟩, 0⟩ 2
      ∧ TutorialEnvironment.calculate_success_probability
          ⟨⟨3/5, 2/25, 1/50⟩, ⟨0, 0, 0, 1⟩, 0⟩ 2 ≤ 19/20) :=
  ⟨le_refl 0, zero_le_one,
    c7_success_probability_clamped ⟨⟨3/5, 2/25, 1/50⟩, ⟨0, 0, 0, 1⟩, 0⟩
      (le_refl 0) zero_le_one 2⟩

/-- The backing store of `defaultdict(lambda: np.zeros(4))`
(`rl_agent.py` line 32): the set of materialized keys plus their stored
4-vectors.  `vals` is only meaningful on `keys`; reads go through
`Qval`. -/
structure QTable where
  keys : Finset QKey
  vals : QKey → Fin 4 → ℚ

/-- The observable value of `q_table[k]`: the stored vector for a
materialized key, the implicit zero vector otherwise. -/
def Qval (t : QTable) (k : QKey) : Fin 4 → ℚ :=
  if k ∈ t.keys then t.vals k else fun _ => 0

/-- `q_table[k]` as an expression statement: a `defaultdict` read
materializes an absent key with its default (the zero vector) and leaves
a present key unchanged. -/
def QTable.materialize (t : QTable) (k : QKey) : QTable :=
  ⟨insert k t.keys, Function.update t.vals k (Qval t k)⟩

/-- `q_table[k][a] = v`: store `v` at action `a` of key `k`
(materializing `k` if needed). -/
def QTable.write (t : QTable) (k : QKey) (a : Fin 4) (v : ℚ) : QTable :=
  ⟨insert k t.keys, Function.update t.vals k (Function.update (Qval t k) a v)⟩

/-- `np.max(q_table[k])` over the fixed 4-element value vector. -/
def QTable.maxQ (t : QTable) (k : QKey) : ℚ :=
  max (max (Qval t k 0) (Qval t k 1)) (max (Qval t k 2) (Qval t k 3))

/-- `QLearningAgent` (`rl_agent.py` lines 23-32). -/
structure QLearningAgent where
  learning_rate : ℚ
  discount_factor : ℚ
  epsilon : ℚ
  q_table : QTable

/-- A fresh `QLearningAgent()` with an empty table. -/
def QLearningAgent.new (lr df eps : ℚ) : QLearningAgent :=
  ⟨lr, df, eps, ⟨∅, fun _ _ => 0⟩⟩

/-- `QLearningAgent.get_q_table_size` (`rl_agent.py` lines 63-65):
`len(self.q_table)`, the number of materialized keys. -/
def QLearningAgent.get_q_table_size (ag : QLearningAgent) : ℕ :=
  ag.q_table.keys.card

/-- `QLearningAgent.select_action` (`rl_agent.py` lines 34-45).  Random
oracles: `u` models `np.random.random()`, `randomAction` models
`np.random.randint(4)`, and `tie` models the index `np.random.choice`
draws from the tied-argmax list.  On the exploration branch the method
returns before touching `q_table`; on the greedy branch
`q_table[state_key]` materializes the key. -/
def QLearningAgent.select_action (ag : QLearningAgent) (state : State)
    (u : ℚ) (randomAction : Fin 4) (tie : ℕ) : Fin 4 × QLearningAgent :=
  if u < ag.epsilon then
    (randomAction, ag)
  else
    let state_key := state.to_key
    let t := ag.q_table.materialize state_key
    let q_values := Qval ag.q_table state_key
    let max_q := ag.q_table.maxQ state_key
    let best_actions := (List.finRange 4).filter (fun a => q_values a = max_q)
    (best_actions.getD (tie % best_actions.length) 0,
      ⟨ag.learning_rate, ag.discount_factor, ag.epsilon, t⟩)

/-- `QLearningAgent.update` (`rl_agent.py` lines 47-61): read
`current_q = q_table[state_key][action]` (materializing `state_key`);
when not done also read `np.max(q_table[next_state_key])` (materializing
`next_state_key`); then store
`current_q + learning_rate * (target - current_q)`. -/
def QLearningAgent.update (ag : QLearningAgent) (state : State) (action : Fin 4)
    (reward : ℚ) (next_state : State) (done : Bool) : QLearningAgent :=
  let state_key := state.to_key
  let next_state_key := next_state.to_key
  let t1 := ag.q_table.materialize state_key
  let current_q := Qval t1 state_key action
  if done then
    let target := reward
    ⟨ag.learning_rate, ag.discount_factor, ag.epsilon,
      t1.write state_key action
        (current_q + ag.learning_rate * (target - current_q))⟩
  else
    let t2 := t1.materialize next_state_key
    let target := reward + ag.discount_factor * t2.maxQ next_state_key
    ⟨ag.learning_rate, ag.discount_factor, ag.epsilon,
      t2.write state_key action
        (current_q + ag.learning_rate * (target - current_q))⟩

/-- Materializing a key does not change any observable table value. -/
theorem Qval_materialize (t : QTable) (k k' : QKey) :
    Qval (t.materialize k) k' = Qval t k' := by
  unfold Qval QTable.materialize
  by_cases hk : k' = k
  · subst hk
    simp [Function.update_apply, Qval]
  · simp [Function.update_apply, hk, Finset.mem_insert]

/-- Writing `(k, a)` changes exactly that slot. -/
theorem Qval_write (t : QTable) (k : QKey) (a : Fin 4) (v : ℚ) (k' : QKey)
    (a' : Fin 4) :
    Qval (t.write k a v) k' a' =
      if k' = k ∧ a' = a then v else Qval t k' a' := by
  unfold Qval QTable.write
  by_cases hk : k' = k
  · subst hk
    by_cases ha : a' = a <;>
      simp [Function.update_apply, ha, Qval, Finset.mem_insert]
  · simp [Function.update_apply, hk, Finset.mem_insert]

/-- Materialization preserves the 4-element maximum. -/
theorem maxQ_materialize (t : QTable) (k k' : QKey) :
    (t.materialize k).maxQ k' = t.maxQ k' := by
  unfold QTable.maxQ
  rw [Qval_materialize]

/-- Claim C8: every `update(state, action, reward, next_state, done)` call
sets the stored value at `(state.to_key, action)` to
`old + learning_rate * (target - old)` where `target = reward` when done
and `target = reward + discount_factor * max(next key values)` otherwise,
and changes no other observable table entry. -/
theorem c8_q_update_rule (ag : QLearningAgent) (state : State) (action : Fin 4)
    (reward : ℚ) (next_state : State) (done : Bool) :
    Qval (ag.update state action reward next_state done).q_table
        state.to_key action =
      Qval ag.q_table state.to_key action
        + ag.learning_rate *
          ((if done then reward
            else reward + ag.discount_factor * ag.q_table.maxQ next_state.to_key)
            - Qval ag.q_table state.to_key action)
    ∧ ∀ k' a', k' ≠ state.to_key ∨ a' ≠ action →
        Qval (ag.update state action reward next_state done).q_table k' a' =
          Qval ag.q_table k' a' := by
  unfold QLearningAgent.update
  cases done
  · simp only [Bool.false_eq_true, if_false, if_neg]
    constructor
    · rw [Qval_write]
      simp [Qval_materialize, maxQ_materialize]
    · intro k' a' h
      rw [Qval_write]
      rw [if_neg]
      · rw [Qval_materialize, Qval_materialize]
      · rintro ⟨h1, h2⟩
        rcases h with h | h <;> exact h (by simp [h1, h2])
  · simp only [if_pos, if_true]
    constructor
    · rw [Qval_write]
      simp [Qval_materialize]
    · intro k' a' h
      rw [Qval_write]
      rw [if_neg]
      · rw [Qval_materialize]
      · rintro ⟨h1, h2⟩
        rcases h with h | h <;> exact h (by simp [h1, h2])

/-- Witness for C8 at concrete inputs: default hyperparameters, a
non-terminal transition between two distinct keys; the hypothesis of the
untouched-entry clause is discharged at a different action index. -/
theorem c8_witness :
    Qval ((QLearningAgent.new (1/10) (19/20) (1/5)).update
        ⟨0, 0, 0, 1⟩ 0 1 ⟨0, 0, 1, 2⟩ false).q_table
        ((0 : ℤ), 0, 2) 3 =
      Qval (QLearningAgent.new (1/10) (19/20) (1/5)).q_table
        ((0 : ℤ), 0, 2) 3 :=
  (c8_q_update_rule (QLearningAgent.new (1/10) (19/20) (1/5))
    ⟨0, 0, 0, 1⟩ 0 1 ⟨0, 0, 1, 2⟩ false).2 ((0 : ℤ), 0, 2) 3 (Or.inr (by decide))

/-- `ThompsonSamplingAgent` (`rl_agent.py` lines 67-91): per-action Beta
counters, `alpha` the success weights and `beta` the failure weights,
both starting at 1.  (Selection samples the Beta distributions; only the
deterministic `update` counter logic is a claim target.) -/
structure ThompsonSamplingAgent where
  alpha : Fin 4 → ℚ
  beta : Fin 4 → ℚ

/-- `ThompsonSamplingAgent.update` (`rl_agent.py` lines 80-87):
`if reward > 0: alpha[action] += 1 else: beta[action] += 1`. -/
def ThompsonSamplingAgent.update (ag : ThompsonSamplingAgent) (action : Fin 4)
    (reward : ℚ) : ThompsonSamplingAgent :=
  if 0 < reward then
    ⟨Function.update ag.alpha action (ag.alpha action + 1), ag.beta⟩
  else
    ⟨ag.alpha, Function.update ag.beta action (ag.beta action + 1)⟩

/-- Claim C9: a Thompson update with `reward > 0` increments exactly the
chosen action's success weight; any other reward (zero included)
increments exactly the chosen action's failure weight; every other
counter is unchanged. -/
theorem c9_thompson_update (ag : ThompsonSamplingAgent) (action : Fin 4)
    (reward : ℚ) :
    (0 < reward →
      (ag.update action reward).alpha action = ag.alpha action + 1
      ∧ (∀ b, b ≠ action → (ag.update action reward).alpha b = ag.alpha b)
      ∧ ∀ b, (ag.update action reward).beta b = ag.beta b)
    ∧ (¬ 0 < reward →
      (ag.update action reward).beta action = ag.beta action + 1
      ∧ (∀ b, b ≠ action → (ag.update action reward).beta b = ag.beta b)
      ∧ ∀ b, (ag.update action reward).alpha b = ag.alpha b) := by
  unfold ThompsonSamplingAgent.update
  constructor
  · intro h
    rw [if_pos h]
    refine ⟨by simp, fun b hb => ?_, fun b => rfl⟩
    simp [Function.update_apply, hb]
  · intro h
    rw [if_neg h]
    refine ⟨by simp, fun b hb => ?_, fun b => rfl⟩
    simp [Function.update_apply, hb]

/-- Witness for C9 at a concrete input: uniform priors, action 2, reward
exactly 0 — which the code counts as a failure. -/
theorem c9_witness :
    (ThompsonSamplingAgent.update ⟨fun _ => 1, fun _ => 1⟩ 2 0).beta 2 =
      (⟨fun _ => 1, fun _ => 1⟩ : ThompsonSamplingAgent).beta 2 + 1
    ∧ (ThompsonSamplingAgent.update ⟨fun _ => 1, fun _ => 1⟩ 2 0).alpha 3 =
      (⟨fun _ => 1, fun _ => 1⟩ : ThompsonSamplingAgent).alpha 3 :=
  ⟨((c9_thompson_update ⟨fun _ => 1, fun _ => 1⟩ 2 0).2 (lt_irrefl 0)).1,
    ((c9_thompson_update ⟨fun _ => 1, fun _ => 1⟩ 2 0).2 (lt_irrefl 0)).2.2 3⟩

/-- One call against the value-table policy: either a `select_action`
(with its three random-stream draws) or an `update`. -/
inductive AgentOp where
  | sel (state : State) (u : ℚ) (randomAction : Fin 4) (tie : ℕ)
  | upd (state : State) (action : Fin 4) (reward : ℚ) (next_state : State)
      (done : Bool)

/-- Execute one call on the agent, keeping only the agent's state. -/
def applyOp (ag : QLearningAgent) : AgentOp → QLearningAgent
  | .sel s u ra tie => (ag.select_action s u ra tie).2
  | .upd s a r s' d => ag.update s a r s' d

/-- Execute a sequence of calls left to right. -/
def runOps (ag : QLearningAgent) (ops : List AgentOp) : QLearningAgent :=
  ops.foldl applyOp ag

/-- The discretized keys PASSED to a call (the reading of claim C4):
the state's key for `select_action`, and both the state's and the next
state's keys for `update`. -/
def passedKeys : AgentOp → Finset QKey
  | .sel s _ _ _ => {s.to_key}
  | .upd s _ _ s' _ => {s.to_key, s'.to_key}

/-- All distinct keys ever passed over a call sequence. -/
def passedKeysAll (ops : List AgentOp) : Finset QKey :=
  ops.foldl (fun acc o => acc ∪ passedKeys o) ∅

/-- The discretized keys a call actually materializes in the table:
`select_action` touches the state's key only on its greedy branch
(`u ≥ ε`); `update` always touches the state's key and touches the next
state's key only when the transition is non-terminal. -/
def touchedKeys (eps : ℚ) : AgentOp → Finset QKey
  | .sel s u _ _ => if u < eps then ∅ else {s.to_key}
  | .upd s _ _ s' d => insert s.to_key (if d then ∅ else {s'.to_key})

/-- All distinct keys ever materialized over a call sequence. -/
def touchedKeysAll (eps : ℚ) (ops : List AgentOp) : Finset QKey :=
  ops.foldl (fun acc o => acc ∪ touchedKeys eps o) ∅

/-- No call changes the agent's epsilon. -/
theorem applyOp_epsilon (ag : QLearningAgent) (o : AgentOp) :
    (applyOp ag o).epsilon = ag.epsilon := by
  cases o with
  | sel s u ra tie =>
    simp only [applyOp, QLearningAgent.select_action]
    split <;> rfl
  | upd s a r s' d =>
    simp only [applyOp, QLearningAgent.update]
    split <;> rfl

/-- The key-set effect of a single call. -/
theorem applyOp_keys (ag : QLearningAgent) (o : AgentOp) :
    (applyOp ag o).q_table.keys =
      ag.q_table.keys ∪ touchedKeys ag.epsilon o := by
  cases o with
  | sel s u ra tie =>
    simp only [applyOp, QLearningAgent.select_action, touchedKeys]
    split
    · simp
    · simp [QTable.materialize, Finset.insert_eq, Finset.union_comm]
  | upd s a r s' d =>
    cases d with
    | true =>
      simp only [applyOp, QLearningAgent.update, touchedKeys, if_pos]
      simp [QTable.write, QTable.materialize]
      ext k
      simp [Finset.mem_insert, Finset.mem_union]
      tauto
    | false =>
      simp only [applyOp, QLearningAgent.update, touchedKeys]
      simp [QTable.write, QTable.materialize]
      ext k
      simp [Finset.mem_insert, Finset.mem_union]
      tauto

/-- Hoisting the accumulator out of the union fold. -/
theorem foldl_union_init (f : AgentOp → Finset QKey) (ops : List AgentOp)
    (init : Finset QKey) :
    ops.foldl (fun acc o => acc ∪ f o) init =
      init ∪ ops.foldl (fun acc o => acc ∪ f o) ∅ := by
  induction ops generalizing init with
  | nil => simp
  | cons o ops ih =>
    simp only [List.foldl_cons]
    rw [ih (init ∪ f o), ih (∅ ∪ f o)]
    simp [Finset.union_assoc]

/-- After any call sequence the materialized key set is the initial key
set plus every key the calls touched. -/
theorem runOps_keys (ops : List AgentOp) (ag : QLearningAgent) :
    (runOps ag ops).q_table.keys =
      ag.q_table.keys ∪ touchedKeysAll ag.epsilon ops := by
  induction ops generalizing ag with
  | nil => simp [runOps, touchedKeysAll]
  | cons o ops ih =>
    simp only [runOps, List.foldl_cons] at ih ⊢
    rw [ih (applyOp ag o)]
    show (applyOp ag o).q_table.keys ∪
        touchedKeysAll (applyOp ag o).epsilon ops = _
    rw [applyOp_epsilon, applyOp_keys]
    unfold touchedKeysAll
    rw [List.foldl_cons, foldl_union_init _ ops (∅ ∪ touchedKeys ag.epsilon o)]
    simp [Finset.union_assoc]

/-- The fold of touched keys splits over list append. -/
theorem touchedKeysAll_append (eps : ℚ) (ops ops2 : List AgentOp) :
    touchedKeysAll eps (ops ++ ops2) =
      touchedKeysAll eps ops ∪ touchedKeysAll eps ops2 := by
  unfold touchedKeysAll
  rw [List.foldl_append, foldl_union_init]

/-- Claim C4 (amended): for a fresh value-table agent, after any call
sequence `table_size()` equals the number of distinct discretized keys
actually materialized — the state key of each greedy (non-exploring)
`select_action` call, the state key of every `update` call, and the next
state's key of every non-terminal `update` call — and `table_size()` is
monotonically non-decreasing along the sequence. -/
theorem c4_table_size_materialized_keys (lr df eps : ℚ)
    (ops ops2 : List AgentOp) :
    (runOps (QLearningAgent.new lr df eps) ops).get_q_table_size =
      (touchedKeysAll eps ops).card
    ∧ (runOps (QLearningAgent.new lr df eps) ops).get_q_table_size ≤
      (runOps (QLearningAgent.new lr df eps) (ops ++ ops2)).get_q_table_size := by
  have hkeys : ∀ os, (runOps (QLearningAgent.new lr df eps) os).q_table.keys =
      touchedKeysAll eps os := by
    intro os
    rw [runOps_keys]
    simp [QLearningAgent.new]
  constructor
  · rw [QLearningAgent.get_q_table_size, hkeys]
  · rw [QLearningAgent.get_q_table_size, QLearningAgent.get_q_table_size,
      hkeys, hkeys, touchedKeysAll_append]
    exact Finset.card_le_card (Finset.subset_union_left)

/-- The single call refuting claim C4 as stated: a terminal update whose
next state discretizes to a different key. -/
def c4Ops : List AgentOp :=
  [AgentOp.upd ⟨0, 0, 0, 1⟩ 0 1 ⟨0, 0, 0, 2⟩ true]

/-- Claim C4, counterexample: after one `update(state, 0, 1, next_state,
done=True)` where `state` and `next_state` discretize to different keys,
two distinct keys were passed to `update` but `table_size()` is 1 — the
terminal branch never materializes `next_state_key` (it only builds the
string), so the claim's count of keys "ever passed" overshoots. -/
theorem c4_counterexample :
    (runOps (QLearningAgent.new (1/10) (19/20) (1/5)) c4Ops).get_q_table_size ≠
      (passedKeysAll c4Ops).card := by
  have h1 : (⟨0, 0, 0, 1⟩ : State).to_key = ((0 : ℤ), 0, 1) := by
    simp [State.to_key, pyInt]
  have h2 : (⟨0, 0, 0, 2⟩ : State).to_key = ((0 : ℤ), 0, 2) := by
    simp [State.to_key, pyInt]
  simp only [c4Ops, runOps, List.foldl_cons, List.foldl_nil, applyOp,
    QLearningAgent.update, QLearningAgent.new, QLearningAgent.get_q_table_size,
    QTable.write, QTable.materialize, passedKeysAll, passedKeys, h1, h2,
    if_pos]
  decide

/-- The argument tuple of one `agent.update(state, action, reward,
next_state, done)` call issued by `ExperimentRunner.run_episode`
(`experiment_runner.py` line 59). -/
structure UpdateCall where
  stateArg : State
  action : Fin 4
  reward : ℚ
  nextStateArg : State
  done : Bool
deriving DecidableEq, Repr, Inhabited

/-- The episode loop of `ExperimentRunner.run_episode`
(`experiment_runner.py` lines 51-72), recorded as the list of
`agent.update` argument tuples, with the chosen actions and uniform draws
supplied by oracles.  Python reference semantics are modelled explicitly:
the single learner-state object is created at `reset` and only mutated
thereafter, the runner's local `state` variable and the environment's
`self.state` both reference it, and `step` returns that same object.  So
when `update(state, ...)` runs — AFTER `step` has mutated the object —
the value read through the local `state` reference is the post-step state
`(step ...).env.state`, while `next_state` is the returned object
`(step ...).stateRet`.  The fuel bounds the `while True` loop: each step
increments `questions_answered` and the loop exits once it reaches 20, so
from any start at most 20 iterations run and fuel 20 is never
exhausted when starting from `reset`. -/
def runEpisodeCalls : ℕ → TutorialEnvironment → (ℕ → Fin 4) → (ℕ → ℚ) →
    ℕ → List UpdateCall
  | 0, _, _, _, _ => []
  | fuel + 1, env, acts, draws, t =>
    let res := env.step (acts t) (draws t)
    let call : UpdateCall :=
      ⟨res.env.state, acts t, res.reward, res.stateRet, res.done⟩
    if res.done then [call]
    else call :: runEpisodeCalls fuel res.env acts draws (t + 1)

/-- The update calls of one episode run from the given environment. -/
def runEpisodeTrace (env : TutorialEnvironment) (acts : ℕ → Fin 4)
    (draws : ℕ → ℚ) : List UpdateCall :=
  runEpisodeCalls 20 env acts draws 0

/-- Claim C10: in every update call the runner issues, the `state` and
`next_state` arguments are field-for-field equal (the environment mutates
and returns the same object and the runner advances by aliasing), so for
the value-table policy the discretized key of the updated entry equals
the discretized key used for the bootstrap maximum at every non-terminal
update. -/
theorem c10_update_args_alias (env : TutorialEnvironment) (acts : ℕ → Fin 4)
    (draws : ℕ → ℚ) (c : UpdateCall) (hc : c ∈ runEpisodeTrace env acts draws) :
    c.stateArg = c.nextStateArg ∧ c.stateArg.to_key = c.nextStateArg.to_key := by
  suffices h : ∀ fuel env t, c ∈ runEpisodeCalls fuel env acts draws t →
      c.stateArg = c.nextStateArg by
    have heq := h 20 env 0 hc
    exact ⟨heq, by rw [heq]⟩
  intro fuel
  induction fuel with
  | zero => intro env t h; simp [runEpisodeCalls] at h
  | succ fuel ih =>
    intro env t h
    simp only [runEpisodeCalls] at h
    by_cases hd : (env.step (acts t) (draws t)).done
    · rw [if_pos hd] at h
      simp only [List.mem_singleton] at h
      subst h
      rfl
    · rw [if_neg hd] at h
      rcases List.mem_cons.mp h with h | h
      · subst h
        rfl
      · exact ih _ _ h

/-- A start state one question before the episode cap, so the witness
trace is a single terminal call. -/
def c10Env : TutorialEnvironment := ⟨⟨3/5, 2/25, 1/50⟩, ⟨1/2, 0, 19, 1⟩, 0⟩

/-- Witness for C10 at a concrete input: the first recorded update call
of an episode run from `c10Env` with constant oracles. -/
theorem c10_witness :
    ((runEpisodeTrace c10Env (fun _ => 1) (fun _ => 0)).headI.stateArg =
      (runEpisodeTrace c10Env (fun _ => 1) (fun _ => 0)).headI.nextStateArg) ∧
    ((runEpisodeTrace c10Env (fun _ => 1) (fun _ => 0)).headI.stateArg.to_key =
      (runEpisodeTrace c10Env (fun _ => 1) (fun _ => 0)).headI.nextStateArg.to_key) :=
  c10_update_args_alias c10Env (fun _ => 1) (fun _ => 0) _ (by
    simp [runEpisodeTrace, runEpisodeCalls, TutorialEnvironment.step, c10Env])

/-- `np.mean` on a list of rationals (`sum / len`).  NumPy returns NaN on
an empty list (with a warning, without raising); in the runner the mean
of an empty list is never observable — `_generate_report` raises at
`max(rewards)` first, and `success_rates` grows in lockstep with
`episode_rewards` — so the ℚ value at the empty list is irrelevant. -/
def npMean (l : List ℚ) : ℚ := l.sum / l.length

/-- `ExperimentRunner._check_convergence` (`experiment_runner.py` lines
126-137) with its default `window = 10`, `threshold = 0.5`: `False` until
`2 * window` episodes exist, then compares the mean of `rewards[-10:]`
against the mean of `rewards[-20:-10]`. -/
def checkConvergence (rewards : List ℚ) : Bool :=
  if rewards.length < 10 * 2 then false
  else
    let recent := rewards.drop (rewards.length - 10)
    let previous := (rewards.drop (rewards.length - 10 * 2)).take 10
    decide (|npMean recent - npMean previous| < 1/2)

/-- The convergence bookkeeping of the episode loop in `run_experiment`
(`experiment_runner.py` lines 93-100): per episode, append the episode
reward to the accumulated list, then set `convergence_episode` to the
current episode index if `_check_convergence()` holds and it is still
`None`.  `acc` is the rewards accumulated so far, `e` the index of the
next episode, `conv` the recorded convergence episode. -/
def convGo : List ℚ → List ℚ → ℕ → Option ℕ → Option ℕ
  | [], _, _, conv => conv
  | r :: rest, acc, e, conv =>
    convGo rest (acc ++ [r]) (e + 1)
      (if checkConvergence (acc ++ [r]) && conv.isNone then some e else conv)

/-- The convergence episode `run_experiment` records over a full sequence
of per-episode rewards. -/
def convergenceEpisode (rws : List ℚ) : Option ℕ := convGo rws [] 0 none

/-- An already-recorded convergence episode is never overwritten. -/
theorem convGo_some (l acc : List ℚ) (e v : ℕ) :
    convGo l acc e (some v) = some v := by
  induction l generalizing acc e with
  | nil => rfl
  | cons r rest ih => simp [convGo, ih]

/-- Splitting the convergence fold at a list append. -/
theorem convGo_append (l1 l2 acc : List ℚ) (e : ℕ) (c : Option ℕ) :
    convGo (l1 ++ l2) acc e c =
      convGo l2 (acc ++ l1) (e + l1.length) (convGo l1 acc e c) := by
  induction l1 generalizing acc e c with
  | nil => simp [convGo]
  | cons r l1 ih =>
    have hstep : convGo ((r :: l1) ++ l2) acc e c =
        convGo (l1 ++ l2) (acc ++ [r]) (e + 1)
          (if checkConvergence (acc ++ [r]) && c.isNone then some e else c) := rfl
    have hstep2 : convGo (r :: l1) acc e c =
        convGo l1 (acc ++ [r]) (e + 1)
          (if checkConvergence (acc ++ [r]) && c.isNone then some e else c) := rfl
    rw [hstep, hstep2, ih]
    have h1 : (acc ++ [r]) ++ l1 = acc ++ r :: l1 := by simp
    have h2 : e + 1 + l1.length = e + (r :: l1).length := by
      simp only [List.length_cons]
      omega
    rw [h1, h2]

/-- Running the fold with no convergence recorded yet finds the first
index at which `_check_convergence` passes on the prefix up to it. -/
theorem convGo_none_eq_find (l : List ℚ) :
    ∀ acc (e : ℕ), convGo l acc e none =
      ((List.range l.length).find?
        (fun i => checkConvergence (acc ++ l.take (i + 1)))).map (fun i => e + i) := by
  induction l with
  | nil => intro acc e; simp [convGo]
  | cons r rest ih =>
    intro acc e
    simp only [convGo, Option.isNone_none, Bool.and_true, List.length_cons,
      List.range_succ_eq_map]
    by_cases h : checkConvergence (acc ++ [r]) = true
    · rw [if_pos h, convGo_some]
      rw [List.find?_cons_of_pos]
      · rfl
      · simpa using h
    · rw [if_neg (by simpa using h)]
      rw [List.find?_cons_of_neg _ (by simpa using h)]
      rw [ih (acc ++ [r]) (e + 1), List.find?_map, Option.map_map]
      have hpred : ((fun i => checkConvergence (acc ++ (r :: rest).take (i + 1)))
            ∘ Nat.succ) =
          (fun i => checkConvergence ((acc ++ [r]) ++ rest.take (i + 1))) := by
        funext i
        simp only [Function.comp_apply, Nat.succ_eq_add_one, List.take_succ_cons]
        rw [List.append_cons]
      rw [hpred]
      congr 1
      funext i
      simp only [Function.comp_apply]
      omega

/-- Claim C5: the runner's convergence episode is the FIRST episode index
at which, once `2 × window = 20` episodes exist, the absolute difference
between the mean of the latest 10 episode rewards and the mean of the 10
before them drops below the 0.5 threshold (first conjunct, with the check
spelled out in the third conjunct); and extending the episode sequence
never changes an already-recorded convergence episode (second conjunct:
if the prefix records `some e`, the whole run returns that same `some e`,
via `Option.or`). -/
theorem c5_convergence_first_time_and_stable (rws ext : List ℚ) :
    convergenceEpisode rws =
      (List.range rws.length).find? (fun e => checkConvergence (rws.take (e + 1)))
    ∧ convergenceEpisode (rws ++ ext) =
        Option.or (convergenceEpisode rws) (convGo ext rws rws.length none)
    ∧ ∀ l : List ℚ, checkConvergence l =
        (decide (10 * 2 ≤ l.length) &&
          decide (|npMean (l.drop (l.length - 10)) -
            npMean ((l.drop (l.length - 10 * 2)).take 10)| < 1/2)) := by
  refine ⟨?_, ?_, ?_⟩
  · rw [convergenceEpisode, convGo_none_eq_find]
    simp
  · rw [convergenceEpisode, convGo_append]
    rcases hc : convGo rws [] 0 none with _ | v
    · simp [convergenceEpisode, hc, Option.or]
    · rw [convGo_some]
      simp [convergenceEpisode, hc, Option.or]
  · intro l
    unfold checkConvergence
    by_cases h : l.length < 10 * 2
    · rw [if_pos h]
      have : ¬ (10 * 2 ≤ l.length) := by omega
      simp [this]
    · rw [if_neg h]
      have : 10 * 2 ≤ l.length := by omega
      simp [this]

/-- The final report of `_generate_report` (`experiment_runner.py` lines
139-170).  `std_reward` is omitted from the embedding: it is a square
root (irrational in general), no claim concerns it, and on the
zero-episode path NumPy's `std([])` produces NaN with a warning rather
than raising, so omitting it does not change which inputs raise. -/
structure Report where
  agent_type : String
  total_episodes : ℕ
  execution_time : ℚ
  total_reward : ℚ
  avg_reward : ℚ
  max_reward : ℚ
  min_reward : ℚ
  final_10_avg_reward : ℚ
  final_success_rate : ℚ
  overall_success_rate : ℚ
  convergence_episode : Option ℕ
  action_distribution : Fin 4 → ℕ
  final_performance : ℚ
  final_q_table_size : ℕ
  improvement : ℚ
deriving Repr

/-- `ExperimentRunner._generate_report` (`experiment_runner.py` lines
139-170).  The builtin `max(rewards)` / `min(rewards)` raise `ValueError`
on an empty list — modelled by the `Except.error` branch (reached exactly
when no episode was recorded); every `np.mean` before them only warns.
The improvement block mirrors lines 162-168: computed only when at least
20 episodes ran, and 0 when the first-10 mean is exactly 0. -/
def generateReport (agent_type : String) (rewards success_rates : List ℚ)
    (conv : Option ℕ) (adist : Fin 4 → ℕ) (performance_history : List ℚ)
    (q_table_sizes : List ℕ) (execution_time : ℚ) : Except String Report :=
  match rewards.max?, rewards.min? with
  | some mx, some mn =>
    Except.ok
      { agent_type := agent_type
        total_episodes := rewards.length
        execution_time := execution_time
        total_reward := rewards.sum
        avg_reward := npMean rewards
        max_reward := mx
        min_reward := mn
        final_10_avg_reward :=
          if 10 ≤ rewards.length then npMean (rewards.drop (rewards.length - 10))
          else npMean rewards
        final_success_rate :=
          if 10 ≤ success_rates.length then
            npMean (success_rates.drop (success_rates.length - 10))
          else npMean success_rates
        overall_success_rate := npMean success_rates
        convergence_episode := conv
        action_distribution := adist
        final_performance := (performance_history.getLast?).getD 0
        final_q_table_size := (q_table_sizes.getLast?).getD 0
        improvement :=
          if 20 ≤ rewards.length then
            if npMean (rewards.take 10) ≠ 0 then
              ((npMean (rewards.drop (rewards.length - 10)) -
                npMean (rewards.take 10)) / |npMean (rewards.take 10)|) * 100
            else 0
          else 0 }
  | _, _ => Except.error "ValueError: max() arg is an empty sequence"

/-- Claim C3 (failing input): with zero recorded episodes the report is
not produced from fallback values — `_generate_report` raises
`ValueError` at `max(rewards)` on the empty rewards list, contradicting
the never-raise requirement. -/
theorem c3_zero_episodes_report_raises :
    generateReport "hybrid" [] [] none (fun _ => 0) [] [] 0 =
      Except.error "ValueError: max() arg is an empty sequence" := rfl

/-- Claim C6: whenever at least one episode ran (so the report is
produced at all), its improvement field is 0 exactly when fewer than 20
episodes ran or the first-10-episode mean reward is exactly 0, and
otherwise equals (last-10 mean − first-10 mean) / |first-10 mean| × 100. -/
theorem c6_improvement_formula (agent_type : String)
    (rewards success_rates : List ℚ) (conv : Option ℕ) (adist : Fin 4 → ℕ)
    (ph : List ℚ) (qs : List ℕ) (t : ℚ) (h : rewards ≠ []) :
    (generateReport agent_type rewards success_rates conv adist ph qs t).map
        Report.improvement =
      Except.ok
        (if rewards.length < 20 ∨ npMean (rewards.take 10) = 0 then 0
         else ((npMean (rewards.drop (rewards.length - 10)) -
            npMean (rewards.take 10)) / |npMean (rewards.take 10)|) * 100) := by
  obtain ⟨mx, hmx⟩ : ∃ mx, rewards.max? = some mx := by
    rcases hm : rewards.max? with _ | mx
    · exact absurd (List.max?_eq_none_iff.mp hm) h
    · exact ⟨mx, rfl⟩
  obtain ⟨mn, hmn⟩ : ∃ mn, rewards.min? = some mn := by
    rcases hm : rewards.min? with _ | mn
    · exact absurd (List.min?_eq_none_iff.mp hm) h
    · exact ⟨mn, rfl⟩
  simp only [generateReport, hmx, hmn, Except.map]
  congr 1
  by_cases h20 : 20 ≤ rewards.length
  · by_cases hz : npMean (rewards.take 10) = 0
    · simp [h20, hz]
    · rw [if_pos h20, if_pos hz, if_neg]
      push_neg
      exact ⟨by omega, hz⟩
  · rw [if_neg h20, if_pos]
    left
    omega

/-- Witness for C6 at a concrete input: a single episode with reward 1
(the hypothesis `rewards ≠ []` holds, fewer than 20 episodes ran, so the
improvement field is 0). -/
theorem c6_witness :
    ([(1 : ℚ)] ≠ []) ∧
    (generateReport "qlearning" [(1 : ℚ)] [1] none (fun _ => 0) [] [] 0).map
        Report.improvement =
      Except.ok
        (if [(1 : ℚ)].length < 20 ∨ npMean ([(1 : ℚ)].take 10) = 0 then 0
         else ((npMean ([(1 : ℚ)].drop ([(1 : ℚ)].length - 10)) -
            npMean ([(1 : ℚ)].take 10)) / |npMean ([(1 : ℚ)].take 10)|) * 100) :=
  ⟨by simp,
    c6_improvement_formula "qlearning" [1] [1] none (fun _ => 0) [] [] 0 (by simp)⟩

/-- The three agent variants `ExperimentRunner.__init__` can construct. -/
inductive AgentKind where
  | qlearning
  | thompson
  | hybrid
deriving DecidableEq, Repr

/-- The agent-selection chain of `ExperimentRunner.__init__`
(`experiment_runner.py` lines 26-31): `if "qlearning" ... elif "thompson"
... else: # hybrid` — ANY other string silently falls into the hybrid
branch; no validation is performed. -/
def agentKindOf (agent_type : String) : AgentKind :=
  if agent_type = "qlearning" then AgentKind.qlearning
  else if agent_type = "thompson" then AgentKind.thompson
  else AgentKind.hybrid

/-- The runner state `ExperimentRunner.__init__` builds (agent and
environment; the metrics start empty and are reflected by the reward
lists threaded through `convergenceEpisode` / `generateReport`). -/
structure ExperimentRunner where
  agent_type : String
  agent_kind : AgentKind
  env : TutorialEnvironment

/-- `ExperimentRunner.__init__` (`experiment_runner.py` lines 14-42):
constructing the environment first (an unknown profile raises `KeyError`
there), then selecting the agent by the if/elif/else chain. -/
def ExperimentRunner.init (agent_type env_type : String) :
    Except String ExperimentRunner :=
  match TutorialEnvironment.init env_type with
  | Except.error e => Except.error e
  | Except.ok env => Except.ok ⟨agent_type, agentKindOf agent_type, env⟩

/-- The episode loop of `run_experiment` (`experiment_runner.py` lines
93-96): `for episode in range(n_episodes)` appends each episode's return
to `metrics["episode_rewards"]`.  The per-episode reward is an oracle
(it depends on the random stream); the loop itself performs NO validation
of `n_episodes`. -/
def runExperimentEpisodeRewards (episodeReward : ℕ → ℚ) (n_episodes : ℕ) :
    List ℚ :=
  (List.range n_episodes).map episodeReward

/-- Claim C2 (failing inputs): the runner does not fail fast on invalid
configuration.  An unknown policy name ("dqn") is accepted and silently
yields the hybrid agent; only an unknown learner profile actually raises
(a bare `KeyError`); and `run_experiment(n_episodes=5)` — outside the
documented [10,500] range — simply runs and records 5 episodes. -/
theorem c2_no_fail_fast_validation :
    (ExperimentRunner.init "dqn" "average").map ExperimentRunner.agent_kind =
      Except.ok AgentKind.hybrid
    ∧ ExperimentRunner.init "qlearning" "genius" =
        Except.error "KeyError: unknown learner_type"
    ∧ (runExperimentEpisodeRewards (fun _ => 0) 5).length = 5 := by
  refine ⟨?_, ?_, ?_⟩ <;>
    simp [ExperimentRunner.init, TutorialEnvironment.init, learnerProfiles,
      agentKindOf, runExperimentEpisodeRewards, Except.map]
